import Mathlib

/-!
Shallow embedding of the MP3 frame-counting core of `foundation-health`
(`src/server-app/utils/mp3/count-frames.ts` and `constants.ts`).

The byte source is modelled as a `List Nat` of byte values; `ParsePosition`
and sizes are `Nat`.  File reads are modelled by `byteAt` (reads past the
end of the source return the zero-filled buffer contents, exactly as an
`fs.read` into a zeroed `Buffer` does) and `readUInt32BE`.
-/

/-- `BITRATES` from `constants.ts`: MPEG-1 Layer III bitrate lookup table in
kbps, indexed by the 4-bit bitrate index.  Entries 0 (free) and 15 (bad) are 0. -/
def BITRATES : List Nat :=
  [0, 32, 40, 48, 56, 64, 80, 96, 112, 128, 160, 192, 224, 256, 320, 0]

/-- `SAMPLE_RATES` from `constants.ts`: MPEG-1 sample rate lookup table in Hz. -/
def SAMPLE_RATES : List Nat := [44100, 48000, 32000]

/-- `FRAME_LENGTH_MULTIPLIER` from `constants.ts`. -/
def FRAME_LENGTH_MULTIPLIER : Nat := 144

/-- One parsed frame header, the result type of `parseFrameHeader`:
`{ bitrate, sampleRate, padding }` in the source. -/
structure FrameInfo where
  bitrate : Nat
  sampleRate : Nat
  padding : Nat
  deriving DecidableEq

/-- The byte of the source at index `i`; `0` past the end (a zero-filled
read buffer). -/
def byteAt (src : List Nat) (i : Nat) : Nat := src.getD i 0

/-- `readUInt32BE` from `count-frames.ts`: read 4 bytes big-endian at
`position`; if fewer than 4 bytes could be read, return 0. -/
def readUInt32BE (src : List Nat) (position : Nat) : Nat :=
  if position + 4 ≤ src.length then
    (byteAt src position <<< 24) ||| (byteAt src (position + 1) <<< 16) |||
      (byteAt src (position + 2) <<< 8) ||| byteAt src (position + 3)
  else 0

/-- `parseFrameHeader` from `count-frames.ts`: validate sync, version, layer,
bitrate index and sample-rate index of a 32-bit header, then look the bitrate
and sample rate up in the tables.  The source's final
`if (!bitrate || !sampleRate) return null` is the `= 0` test (the tables are
always indexed in bounds at this point, so JS `undefined` cannot occur). -/
def parseFrameHeader (header : Nat) : Option FrameInfo :=
  if (header >>> 21) &&& 0x7ff ≠ 0x7ff then none
  else if (header >>> 19) &&& 3 ≠ 3 then none
  else if (header >>> 17) &&& 3 ≠ 1 then none
  else if (header >>> 12) &&& 15 = 0 ∨ (header >>> 12) &&& 15 = 15 then none
  else if (header >>> 10) &&& 3 = 3 then none
  else if BITRATES.getD ((header >>> 12) &&& 15) 0 = 0 ∨
      SAMPLE_RATES.getD ((header >>> 10) &&& 3) 0 = 0 then none
  else some ⟨BITRATES.getD ((header >>> 12) &&& 15) 0,
    SAMPLE_RATES.getD ((header >>> 10) &&& 3) 0,
    (header >>> 9) &&& 1⟩

/-- The frame length computed inline in `countFrames` and
`skipXingInfoFrame`:
`Math.floor((FRAME_LENGTH_MULTIPLIER * 1000 * frame.bitrate) / frame.sampleRate) + frame.padding`. -/
def frameLength (frame : FrameInfo) : Nat :=
  FRAME_LENGTH_MULTIPLIER * 1000 * frame.bitrate / frame.sampleRate + frame.padding

/-- The `identifier === "Xing" || identifier === "Info"` comparison in
`skipXingInfoFrame`.  Node's `Buffer.toString("ascii")` keeps only the low
7 bits of each byte before the comparison, so each byte is masked with 0x7f. -/
def markerMatches (src : List Nat) (p : Nat) : Bool :=
  ((byteAt src p &&& 0x7f == 0x58) && (byteAt src (p + 1) &&& 0x7f == 0x69) &&
    (byteAt src (p + 2) &&& 0x7f == 0x6e) && (byteAt src (p + 3) &&& 0x7f == 0x67)) ||
  ((byteAt src p &&& 0x7f == 0x49) && (byteAt src (p + 1) &&& 0x7f == 0x6e) &&
    (byteAt src (p + 2) &&& 0x7f == 0x66) && (byteAt src (p + 3) &&& 0x7f == 0x6f))

/-- `skipXingInfoFrame` from `count-frames.ts`: if at least 44 bytes remain,
the header at `position` parses, the frame length passes the bound check, 4
identifier bytes could be read at offset 36 and they spell `Xing` or `Info`,
skip the metadata frame; otherwise return `position` unchanged. -/
def skipXingInfoFrame (src : List Nat) (position fileSize : Nat) : Nat :=
  if position + 44 > fileSize then position
  else
    match parseFrameHeader (readUInt32BE src position) with
    | none => position
    | some frame =>
      if frameLength frame ≤ 0 ∨ position + frameLength frame > fileSize then position
      else if position + 40 ≤ src.length ∧ markerMatches src (position + 36) = true then
        position + frameLength frame
      else position

/-- `skipID3Tag` from `count-frames.ts`: require 10 readable header bytes,
match the ASCII identifier `ID3` (0x49 0x44 0x33), decode the synchsafe
28-bit tag size (the source's `tagSize` constant, inlined here) from bytes
6-9, and return `position + 10 + tagSize` clamped to `fileSize`.  The
second guard is the source's `bytesRead < 10` check. -/
def skipID3Tag (src : List Nat) (position fileSize : Nat) : Nat :=
  if position + 10 > fileSize then position
  else if min 10 (src.length - position) < 10 then position
  else if byteAt src position ≠ 0x49 ∨ byteAt src (position + 1) ≠ 0x44 ∨
      byteAt src (position + 2) ≠ 0x33 then position
  else if position + 10 +
      (((byteAt src (position + 6) &&& 0x7f) <<< 21) |||
       ((byteAt src (position + 7) &&& 0x7f) <<< 14) |||
       ((byteAt src (position + 8) &&& 0x7f) <<< 7) |||
       (byteAt src (position + 9) &&& 0x7f)) ≤ fileSize then
    position + 10 +
      (((byteAt src (position + 6) &&& 0x7f) <<< 21) |||
       ((byteAt src (position + 7) &&& 0x7f) <<< 14) |||
       ((byteAt src (position + 8) &&& 0x7f) <<< 7) |||
       (byteAt src (position + 9) &&& 0x7f))
  else fileSize

/-- The `while (position + 4 <= size)` loop of `countFrames`, with the
source's `position` and `frameCount` variables as explicit arguments:
parse a header, stop (returning the accumulated count) on an invalid header
or a frame length that is non-positive or reads past the end, otherwise
advance by the frame length and count the frame. -/
def countLoop (src : List Nat) (size position acc : Nat) : Nat :=
  if _h4 : position + 4 ≤ size then
    match parseFrameHeader (readUInt32BE src position) with
    | none => acc
    | some frame =>
      if hL : frameLength frame ≤ 0 ∨ position + frameLength frame > size then acc
      else countLoop src size (position + frameLength frame) (acc + 1)
  else acc
termination_by size - position
decreasing_by
  simp_wf
  push_neg at hL
  omega

/-- `countFrames` from `count-frames.ts`: return 0 for sources shorter than
4 bytes; otherwise skip a leading ID3v2 tag, then a Xing/Info metadata
frame, then count frames from the resulting position. -/
def countFrames (src : List Nat) : Nat :=
  if src.length < 4 then 0
  else
    countLoop src src.length
      (skipXingInfoFrame src (skipID3Tag src 0 src.length) src.length) 0

/-- Claim C1: for every bitrate index between 1 and 14, every sample-rate
index between 0 and 2, and padding 0 or 1, `parseFrameHeader` applied to a
32-bit header whose sync field is all ones, version field is binary 11
(MPEG-1) and layer field is binary 01 (Layer III) returns exactly the
bitrate and sample rate from the lookup tables together with the padding
bit. -/
theorem parseFrameHeader_valid (header bi si pad : Nat)
    (hword : header < 2 ^ 32)
    (hsync : (header >>> 21) &&& 0x7ff = 0x7ff)
    (hver : (header >>> 19) &&& 3 = 3)
    (hlayer : (header >>> 17) &&& 3 = 1)
    (hbi : (header >>> 12) &&& 15 = bi)
    (hsi : (header >>> 10) &&& 3 = si)
    (hpad : (header >>> 9) &&& 1 = pad)
    (hbi1 : 1 ≤ bi) (hbi14 : bi ≤ 14) (hsi2 : si ≤ 2) :
    parseFrameHeader header = some ⟨BITRATES.getD bi 0, SAMPLE_RATES.getD si 0, pad⟩ := by
  unfold parseFrameHeader
  rw [hsync, hver, hlayer, hbi, hsi, hpad]
  rw [if_neg (by omega), if_neg (by omega), if_neg (by omega), if_neg (by omega),
    if_neg (by omega),
    if_neg (by interval_cases bi <;> interval_cases si <;> simp [BITRATES, SAMPLE_RATES])]

/-- Witness for C1 at the concrete header 0xFFFB9000 (sync all ones,
MPEG-1, Layer III, bitrate index 9 = 128 kbps, sample-rate index 0 =
44100 Hz, padding 0). -/
theorem parseFrameHeader_valid_witness :
    parseFrameHeader 0xFFFB9000 = some ⟨128, 44100, 0⟩ :=
  parseFrameHeader_valid 0xFFFB9000 9 0 0 (by decide) (by decide) (by decide)
    (by decide) (by decide) (by decide) (by decide) (by decide) (by decide) (by decide)

/-- Claim C7: every 32-bit header whose sync field is not all ones, or whose
version field is not MPEG-1, or whose layer field is not Layer III, or whose
bitrate index is 0 or 15, or whose sample-rate index is 3, parses to `none`,
regardless of all other bits. -/
theorem parseFrameHeader_invalid (header : Nat) (hword : header < 2 ^ 32)
    (h : (header >>> 21) &&& 0x7ff ≠ 0x7ff ∨ (header >>> 19) &&& 3 ≠ 3 ∨
      (header >>> 17) &&& 3 ≠ 1 ∨ (header >>> 12) &&& 15 = 0 ∨
      (header >>> 12) &&& 15 = 15 ∨ (header >>> 10) &&& 3 = 3) :
    parseFrameHeader header = none := by
  unfold parseFrameHeader
  split_ifs with h1 h2 h3 h4 h5 h6 <;> try rfl
  exfalso
  rcases h with h | h | h | h | h | h <;> simp_all

/-- Witness for C7 at the all-zero header (sync field fails). -/
theorem parseFrameHeader_invalid_witness : parseFrameHeader 0 = none :=
  parseFrameHeader_invalid 0 (by decide) (Or.inl (by decide))

/-- Claim C9: for every source shorter than 4 bytes, `countFrames` returns 0
(and, being a total function, produces no error). -/
theorem countFrames_short_source (src : List Nat) (h : src.length < 4) :
    countFrames src = 0 := by
  unfold countFrames
  rw [if_pos h]

/-- Witness for C9 at the empty source. -/
theorem countFrames_short_source_witness : countFrames [] = 0 :=
  countFrames_short_source [] (by decide)

/-- A 417-byte source consisting of one complete 128 kbps / 44100 Hz frame:
a valid header followed by zero bytes. -/
def w417 : List Nat := 0xff :: 0xfb :: 0x90 :: 0x00 :: List.replicate 413 0

/-- Claim C2: for every frame accepted by the walker, the length used to
advance the position is `floor(144000 * bitrate / sampleRate) + padding`,
and it is a positive integer not exceeding the bytes remaining from the
frame's start; in particular 128 kbps at 44100 Hz gives 417 without padding
and 418 with padding. -/
theorem countLoop_accepted_step (src : List Nat) (size position acc : Nat)
    (frame : FrameInfo)
    (h4 : position + 4 ≤ size)
    (hparse : parseFrameHeader (readUInt32BE src position) = some frame)
    (hacc : ¬(frameLength frame ≤ 0 ∨ position + frameLength frame > size)) :
    countLoop src size position acc =
      countLoop src size (position + frameLength frame) (acc + 1)
    ∧ frameLength frame =
      144000 * frame.bitrate / frame.sampleRate + frame.padding
    ∧ 0 < frameLength frame ∧ position + frameLength frame ≤ size
    ∧ frameLength ⟨128, 44100, 0⟩ = 417 ∧ frameLength ⟨128, 44100, 1⟩ = 418 := by
  refine ⟨?_, rfl, by omega, by omega, by decide, by decide⟩
  rw [countLoop]
  simp only [hparse]
  rw [dif_pos h4, dif_neg hacc]

set_option maxRecDepth 8000 in
/-- Witness for C2: the first (and only) frame of `w417` is accepted with
frame length 417. -/
theorem countLoop_accepted_step_witness :
    countLoop w417 417 0 0 =
      countLoop w417 417 (0 + frameLength ⟨128, 44100, 0⟩) (0 + 1)
    ∧ frameLength ⟨128, 44100, 0⟩ = 144000 * 128 / 44100 + 0
    ∧ 0 < frameLength ⟨128, 44100, 0⟩ ∧ 0 + frameLength ⟨128, 44100, 0⟩ ≤ 417
    ∧ frameLength ⟨128, 44100, 0⟩ = 417 ∧ frameLength ⟨128, 44100, 1⟩ = 418 :=
  countLoop_accepted_step w417 417 0 0 ⟨128, 44100, 0⟩ (by decide) (by decide)
    (by decide)

/-- Claim C3: when the counting loop of `countFrames` meets an invalid
header at the current position, it stops and returns the count accumulated
so far (a total function: no error is raised). -/
theorem countLoop_invalid_stop (src : List Nat) (size position acc : Nat)
    (h4 : position + 4 ≤ size)
    (hparse : parseFrameHeader (readUInt32BE src position) = none) :
    countLoop src size position acc = acc := by
  rw [countLoop]
  simp [h4, hparse]

/-- Witness for C3: four zero bytes are an invalid header, so the loop
returns the accumulated count 5 unchanged. -/
theorem countLoop_invalid_stop_witness : countLoop [0, 0, 0, 0] 4 0 5 = 5 :=
  countLoop_invalid_stop [0, 0, 0, 0] 4 0 5 (by decide) (by decide)

/-- Claim C4: when the computed frame length is non-positive or would read
past the source end, the counting loop stops and returns the accumulated
count (a total function: no error is raised). -/
theorem countLoop_truncated_stop (src : List Nat) (size position acc : Nat)
    (frame : FrameInfo)
    (h4 : position + 4 ≤ size)
    (hparse : parseFrameHeader (readUInt32BE src position) = some frame)
    (hstop : frameLength frame ≤ 0 ∨ position + frameLength frame > size) :
    countLoop src size position acc = acc := by
  rw [countLoop]
  simp only [hparse]
  rw [dif_pos h4, dif_pos hstop]

/-- Witness for C4: a lone valid header in a 4-byte source yields frame
length 417 > 4, so the loop returns the accumulated count 7 unchanged. -/
theorem countLoop_truncated_stop_witness :
    countLoop [0xff, 0xfb, 0x90, 0x00] 4 0 7 = 7 :=
  countLoop_truncated_stop [0xff, 0xfb, 0x90, 0x00] 4 0 7 ⟨128, 44100, 0⟩
    (by decide) (by decide) (Or.inr (by decide))

/-- Claim C5: with at least 10 bytes remaining and the 3 identifier bytes
spelling `ID3`, `skipID3Tag` returns `min (position + 10 + tagSize)
sourceLength` with the synchsafe tag size decoded from bytes 6-9; with
fewer than 10 bytes remaining or any identifier byte off, it returns the
position unchanged. -/
theorem skipID3Tag_spec (src : List Nat) (position : Nat) :
    (position + 10 ≤ src.length →
      byteAt src position = 0x49 → byteAt src (position + 1) = 0x44 →
      byteAt src (position + 2) = 0x33 →
      skipID3Tag src position src.length =
        min (position + 10 +
          (((byteAt src (position + 6) &&& 0x7f) <<< 21) |||
           ((byteAt src (position + 7) &&& 0x7f) <<< 14) |||
           ((byteAt src (position + 8) &&& 0x7f) <<< 7) |||
           (byteAt src (position + 9) &&& 0x7f))) src.length)
    ∧ (src.length < position + 10 ∨ byteAt src position ≠ 0x49 ∨
        byteAt src (position + 1) ≠ 0x44 ∨ byteAt src (position + 2) ≠ 0x33 →
      skipID3Tag src position src.length = position) := by
  constructor
  · intro hlen h0 h1 h2
    unfold skipID3Tag
    rw [if_neg (by omega), if_neg (by omega), if_neg (by simp [h0, h1, h2]),
      Nat.min_def]
  · intro h
    unfold skipID3Tag
    split_ifs with g1 g2 g3 g4 <;> try rfl
    all_goals exfalso
    all_goals rcases h with h | h | h | h
    all_goals first | omega | simp_all

/-- A 10-byte source starting with an ID3v2 header whose synchsafe size
bytes encode 5. -/
def wid3 : List Nat := [0x49, 0x44, 0x33, 3, 0, 0, 0, 0, 0, 5]

/-- Witness for C5: from position 0 the ID3 header with tag size 5 skips to
`min (0 + 10 + 5) 10 = 10`; from position 3 no identifier matches and the
position is unchanged. -/
theorem skipID3Tag_spec_witness :
    skipID3Tag wid3 0 10 = min (0 + 10 + 5) 10 ∧ skipID3Tag wid3 3 10 = 3 :=
  ⟨(skipID3Tag_spec wid3 0).1 (by decide) (by decide) (by decide) (by decide),
   (skipID3Tag_spec wid3 3).2 (Or.inl (by decide))⟩

/-- Claim C6: `skipXingInfoFrame` returns `position + frameLength` exactly
when at least 44 bytes remain, the header parses, the frame length passes
the bound check and the 4 ASCII bytes at offset 36 spell `Xing` or `Info`;
in every other case (too few bytes, invalid header, bad frame length, no
marker) it returns the position unchanged, and it is a total function so it
never raises. -/
theorem skipXingInfoFrame_spec (src : List Nat) (position : Nat) (frame : FrameInfo) :
    (position + 44 ≤ src.length →
      parseFrameHeader (readUInt32BE src position) = some frame →
      ¬(frameLength frame ≤ 0 ∨ position + frameLength frame > src.length) →
      markerMatches src (position + 36) = true →
      skipXingInfoFrame src position src.length = position + frameLength frame)
    ∧ (src.length < position + 44 →
      skipXingInfoFrame src position src.length = position)
    ∧ (parseFrameHeader (readUInt32BE src position) = none →
      skipXingInfoFrame src position src.length = position)
    ∧ (parseFrameHeader (readUInt32BE src position) = some frame →
      frameLength frame ≤ 0 ∨ position + frameLength frame > src.length →
      skipXingInfoFrame src position src.length = position)
    ∧ (markerMatches src (position + 36) = false →
      skipXingInfoFrame src position src.length = position) := by
  refine ⟨?_, ?_, ?_, ?_, ?_⟩
  · intro h44 hp hok hm
    unfold skipXingInfoFrame
    rw [if_neg (by omega)]
    simp only [hp]
    rw [if_neg hok, if_pos ⟨by omega, hm⟩]
  · intro h44
    unfold skipXingInfoFrame
    rw [if_pos (by omega)]
  · intro hp
    unfold skipXingInfoFrame
    simp [hp]
  · intro hp hbad
    unfold skipXingInfoFrame
    by_cases h44 : position + 44 > src.length
    · rw [if_pos h44]
    · rw [if_neg h44]
      simp only [hp]
      rw [if_pos hbad]
  · intro hm
    unfold skipXingInfoFrame
    rcases hp : parseFrameHeader (readUInt32BE src position) with _ | f
    · simp [hp]
    · simp only [hp]
      split_ifs <;> first | rfl | simp_all

/-- A 417-byte source consisting of one complete 128 kbps / 44100 Hz frame
carrying the ASCII marker `Xing` at offset 36. -/
def wxing : List Nat :=
  [0xff, 0xfb, 0x90, 0x00] ++ List.replicate 32 0 ++
    [0x58, 0x69, 0x6e, 0x67] ++ List.replicate 377 0

set_option maxRecDepth 8000 in
/-- Witness for C6: the Xing metadata frame of `wxing` is skipped, advancing
the position by its frame length 417. -/
theorem skipXingInfoFrame_spec_witness : skipXingInfoFrame wxing 0 417 = 417 :=
  (skipXingInfoFrame_spec wxing 0 ⟨128, 44100, 0⟩).1 (by decide) (by decide)
    (by decide) (by decide)

/-- Claim C8: within one counting pass the parse position never decreases
and never exceeds the source length — after `skipID3Tag`, after
`skipXingInfoFrame`, and across a loop iteration of `countFrames` (which
advances an accepted frame's position by its frame length). -/
theorem parse_position_invariant (src : List Nat) (position : Nat)
    (frame : FrameInfo) (hpos : position ≤ src.length) :
    (position ≤ skipID3Tag src position src.length ∧
      skipID3Tag src position src.length ≤ src.length)
    ∧ (position ≤ skipXingInfoFrame src position src.length ∧
      skipXingInfoFrame src position src.length ≤ src.length)
    ∧ (parseFrameHeader (readUInt32BE src position) = some frame →
      ¬(frameLength frame ≤ 0 ∨ position + frameLength frame > src.length) →
      position ≤ position + frameLength frame ∧
        position + frameLength frame ≤ src.length) := by
  refine ⟨?_, ?_, fun _ hok => by omega⟩
  · unfold skipID3Tag
    split_ifs <;> omega
  · unfold skipXingInfoFrame
    rcases hp : parseFrameHeader (readUInt32BE src position) with _ | f
    · simp only [hp]
      split_ifs <;> omega
    · simp only [hp]
      split_ifs <;> omega

set_option maxRecDepth 8000 in
/-- Witness for C8 on the one-frame source `w417` from position 0. -/
theorem parse_position_invariant_witness :
    ((0 : Nat) ≤ skipID3Tag w417 0 417 ∧ skipID3Tag w417 0 417 ≤ 417)
    ∧ ((0 : Nat) ≤ skipXingInfoFrame w417 0 417 ∧
      skipXingInfoFrame w417 0 417 ≤ 417)
    ∧ (parseFrameHeader (readUInt32BE w417 0) = some ⟨128, 44100, 0⟩ →
      ¬(frameLength ⟨128, 44100, 0⟩ ≤ 0 ∨
        0 + frameLength ⟨128, 44100, 0⟩ > 417) →
      (0 : Nat) ≤ 0 + frameLength ⟨128, 44100, 0⟩ ∧
        0 + frameLength ⟨128, 44100, 0⟩ ≤ 417) :=
  parse_position_invariant w417 0 ⟨128, 44100, 0⟩ (by decide)

/-- Claim C10: every header accepted by `parseFrameHeader` carries a
bitrate of at least 32 kbps and a sample rate of at most 48000 Hz, so its
frame length is at least 96; hence the `frameLength <= 0` half of the
termination test in the counting loop and in `skipXingInfoFrame` can never
fire, and that test is equivalent to the truncation condition alone. -/
theorem frameLength_lower_bound (header position size : Nat)
    (frame : FrameInfo) (h : parseFrameHeader header = some frame) :
    32 ≤ frame.bitrate ∧ frame.sampleRate ≤ 48000 ∧ 96 ≤ frameLength frame
    ∧ ((frameLength frame ≤ 0 ∨ position + frameLength frame > size) ↔
      position + frameLength frame > size) := by
  have hmain : 32 ≤ frame.bitrate ∧ frame.sampleRate ≤ 48000 ∧
      96 ≤ frameLength frame := by
    unfold parseFrameHeader at h
    split_ifs at h with h1 h2 h3 h4 h5 h6
    injection h with h
    subst h
    obtain ⟨h40, h415⟩ := not_or.mp h4
    have hb : (header >>> 12) &&& 15 ≤ 15 := Nat.and_le_right
    have hs : (header >>> 10) &&& 3 ≤ 3 := Nat.and_le_right
    clear h6
    generalize hbg : (header >>> 12) &&& 15 = bi at *
    generalize hsg : (header >>> 10) &&& 3 = si at *
    interval_cases bi <;> interval_cases si <;>
      first
        | omega
        | (simp [frameLength, FRAME_LENGTH_MULTIPLIER, BITRATES, SAMPLE_RATES]
           try omega)
  have h96 := hmain.2.2
  exact ⟨hmain.1, hmain.2.1, h96, by omega⟩

/-- Witness for C10 at the concrete header 0xFFFB9000 (128 kbps, 44100 Hz,
frame length 417). -/
theorem frameLength_lower_bound_witness :
    (32 : Nat) ≤ 128 ∧ (44100 : Nat) ≤ 48000 ∧ 96 ≤ frameLength ⟨128, 44100, 0⟩
    ∧ ((frameLength ⟨128, 44100, 0⟩ ≤ 0 ∨
        0 + frameLength ⟨128, 44100, 0⟩ > 417) ↔
      0 + frameLength ⟨128, 44100, 0⟩ > 417) :=
  frameLength_lower_bound 0xFFFB9000 0 417 ⟨128, 44100, 0⟩ (by decide)
